import Mathlib

/-!
Shallow embedding of the `svc-turfoo-ingest` service (turfoo package):
the settings/feed-type configuration (settings.py, models.py), the RSS
domain records (models.py), the feed fetcher and link scraper generators
(resources.py), the Celery task bodies (tasks.py), and the connectable
resource mixin (mixins.py).  Machine-level effects (network retrieval by
feedparser/httpx, the Redis key/value store) are modelled by an explicit
world record threaded through the operations; Python generators are
compiled into an explicit state machine with a separate "call" step and
"advance" step, matching Python generator-function semantics (calling a
generator function executes none of its body).
-/

set_option autoImplicit false

namespace Turfoo

/-- Validity of a URL string, modelling pydantic HttpUrl validation as used
by the Settings fields in settings.py: the scheme must be http or https and
the host part must be nonempty.  A pydantic HttpUrl value is modelled
throughout by its string rendering (the source always consumes URLs via
str(...)). -/
def isValidHttpUrl (s : String) : Bool :=
  if s.data.take 7 = "http://".data then
    ((s.data.drop 7).takeWhile (fun c => c != '/')) != []
  else if s.data.take 8 = "https://".data then
    ((s.data.drop 8).takeWhile (fun c => c != '/')) != []
  else false

/-- Raw environment input for the three feed-URL fields of settings.py
(the remaining Settings fields — Redis, S3, Celery, logging — are not
referenced by any claim and are omitted). -/
structure RawEnv where
  turfoo_program_feed_url : String
  turfoo_news_feed_url : String
  turfoo_results_feed_url : String
deriving DecidableEq, Repr

/-- Loaded settings: the three feed URLs of settings.py, already validated. -/
structure Settings where
  turfoo_program_feed_url : String
  turfoo_news_feed_url : String
  turfoo_results_feed_url : String
deriving DecidableEq, Repr

/-- Embeds construction of the pydantic Settings instance (settings.py:
settings = Settings()): each HttpUrl field is validated while the
configuration loads; any syntactically invalid URL makes construction fail,
so no Settings value exists. -/
def Settings.load (env : RawEnv) : Option Settings :=
  if isValidHttpUrl env.turfoo_program_feed_url
      && isValidHttpUrl env.turfoo_news_feed_url
      && isValidHttpUrl env.turfoo_results_feed_url then
    some ⟨env.turfoo_program_feed_url, env.turfoo_news_feed_url,
      env.turfoo_results_feed_url⟩
  else none

/-- Embeds models.RSSFeedType, the enumeration with members PROGRAM, NEWS,
RESULTS. -/
inductive RSSFeedType where
  | PROGRAM
  | NEWS
  | RESULTS
deriving DecidableEq, Repr

/-- Embeds the value each RSSFeedType member is bound to in models.py
(lines 26-32): the corresponding feed URL of the loaded settings object
(spelled settings.conf.TURFOO_..._FEED_URL in source, referring to the
loaded Settings configuration). -/
def RSSFeedType.value (conf : Settings) : RSSFeedType → String
  | .PROGRAM => conf.turfoo_program_feed_url
  | .NEWS => conf.turfoo_news_feed_url
  | .RESULTS => conf.turfoo_results_feed_url

/-- Embeds the url_str property of models.RSSFeedType (str of the member
value; values are already strings in this model). -/
def RSSFeedType.url_str (conf : Settings) (ft : RSSFeedType) : String :=
  ft.value conf

/-- Embeds the frozen dataclass models.RSSDetail. -/
structure RSSDetail where
  type : String
  language : String
  base : String
  value : String
deriving DecidableEq, Repr

/-- Embeds the frozen dataclass models.RSSLink. -/
structure RSSLink where
  rel : String
  type : String
  href : String
deriving DecidableEq, Repr

/-- One raw entry of a parsed feed, as handed out by feedparser: a record
with exactly the keys that models.RSSEntry(**entry) consumes. -/
structure RawEntry where
  title : String
  title_detail : RSSDetail
  links : List RSSLink
  link : String
  published : String
  published_parsed : String
  id : String
  guidislink : Bool
  summary : String
  summary_detail : RSSDetail
deriving DecidableEq, Repr

/-- Embeds the frozen dataclass models.RSSEntry.  The source annotates the
field published twice (once as datetime, once as str); Python keeps a single
field named published whose final annotation is str, which is what this
record has. -/
structure RSSEntry where
  title : String
  title_detail : RSSDetail
  links : List RSSLink
  link : String
  published : String
  published_parsed : String
  id : String
  guidislink : Bool
  summary : String
  summary_detail : RSSDetail
deriving DecidableEq, Repr

/-- Embeds the construction models.RSSEntry(**entry) performed by
TurfooRSSFeed.fetch: each field of the raw entry is passed through
unchanged. -/
def RSSEntry.ofRaw (e : RawEntry) : RSSEntry :=
  ⟨e.title, e.title_detail, e.links, e.link, e.published, e.published_parsed,
    e.id, e.guidislink, e.summary, e.summary_detail⟩

/-- The parts of a feedparser.FeedParserDict that the source reads: the
bozo malformed-document flag with its diagnostic, the entry list, and the
feed title (tasks.py reads feed.feed.get with default Unknown, so the
title is optional). -/
structure FeedParserDict where
  bozo : Bool
  bozo_exception : String
  entries : List RawEntry
  title : Option String
deriving DecidableEq, Repr

/-- Outcome of evaluating feedparser.parse on a URL: either the call raised
urllib.error.URLError (the case caught in resources.py), or it returned a
FeedParserDict.  Note feedparser does not raise on a non-2xx HTTP status;
it returns a document (typically bozo, with zero entries). -/
inductive ParseOutcome where
  | urlError (e : String)
  | parsed (d : FeedParserDict)
deriving DecidableEq, Repr

/-- Argument actually passed to an exception constructor in resources.py:
either the literal Ellipsis (the TurfooFeedError(...) call on the URLError
path) or a message string. -/
inductive PyMsg where
  | ellipsis
  | str (s : String)
deriving DecidableEq, Repr

/-- Modelled from the spec: the module turfoo/exceptions.py is not under
src (resources.py imports it); the spec's error taxonomy (section 7 of the
design) names the feed failure and the scrape failure as distinct exception
types, and resources.py raises exactly two class names, TurfooFeedError
(for transport, malformed and empty feeds alike) and TurfooLinkScrapeError.
Each value carries the constructor argument and the chained cause (the
exception named by the raise-from clause, rendered as a string), when
present. -/
inductive TurfooError where
  | TurfooFeedError (message : PyMsg) (cause : Option String)
  | TurfooLinkScrapeError (message : String) (cause : String)
deriving DecidableEq, Repr

/-- Embeds the body of TurfooRSSFeed.fetch (resources.py lines 13-27) as
run when the generator is first advanced, given the parse outcome for the
feed URL: a URLError is re-raised as TurfooFeedError(...) from e; a bozo
document raises TurfooFeedError with the parser diagnostic in the message
and as the chained cause; a document with no entries raises
TurfooFeedError; otherwise each raw entry is mapped to an RSSEntry in
source order. -/
def fetchBody (o : ParseOutcome) : Except TurfooError (List RSSEntry) :=
  match o with
  | .urlError e => .error (.TurfooFeedError .ellipsis (some e))
  | .parsed feed =>
    if feed.bozo then
      .error (.TurfooFeedError (.str ("Malformed feed: " ++ feed.bozo_exception))
        (some feed.bozo_exception))
    else if feed.entries.isEmpty then
      .error (.TurfooFeedError (.str "RSS feed contains no entries") none)
    else
      .ok (feed.entries.map RSSEntry.ofRaw)

/-- World threaded through effectful steps: what feedparser.parse produces
for each URL, the Redis key/value store contents, and the log of URLs
retrieved over the network so far. -/
structure World where
  net : String → ParseOutcome
  kv : String → Option String
  fetchLog : List String

/-- State of the TurfooRSSFeed.fetch generator: freshly created (body not
yet entered), iterating through remaining entries, or exhausted. -/
inductive GenState where
  | created (url : String)
  | yielding (rest : List RSSEntry)
  | finished
deriving DecidableEq, Repr

/-- What one advance of the generator produces for the consumer. -/
inductive NextResult where
  | yielded (e : RSSEntry)
  | stopIteration
  | raised (err : TurfooError)
deriving DecidableEq, Repr

/-- Embeds calling TurfooRSSFeed.fetch(feed_type): fetch is a Python
generator function (its body contains yield), so the call itself runs none
of the body — it resolves no URL content, performs no retrieval, and
returns a fresh generator over the feed-type URL with the world
untouched. -/
def TurfooRSSFeed.fetch (conf : Settings) (feed_type : RSSFeedType)
    (w : World) : World × GenState :=
  (w, .created (feed_type.value conf))

/-- Embeds advancing the generator once: the first advance performs the
network retrieval-and-parse (logged in the world) and runs the validation
of fetchBody, raising there if the feed is malformed or empty; later
advances step through the remaining mapped entries. -/
def genNext (g : GenState) (w : World) : World × NextResult × GenState :=
  match g with
  | .created url =>
    let w2 : World := { w with fetchLog := w.fetchLog ++ [url] }
    match fetchBody (w.net url) with
    | .error err => (w2, .raised err, .finished)
    | .ok [] => (w2, .stopIteration, .finished)
    | .ok (e :: rest) => (w2, .yielded e, .yielding rest)
  | .yielding [] => (w, .stopIteration, .finished)
  | .yielding (e :: rest) => (w, .yielded e, .yielding rest)
  | .finished => (w, .stopIteration, .finished)

/-- Drain a generator: advance it up to fuel times, collecting the yielded
entries until it stops or raises; the result is the yielded prefix together
with the terminal error, if one was raised. -/
def drainFrom (fuel : Nat) (g : GenState) (w : World) :
    List RSSEntry × Option TurfooError :=
  match fuel with
  | 0 => ([], none)
  | fuel + 1 =>
    match genNext g w with
    | (w2, .yielded e, g2) =>
      let r := drainFrom fuel g2 w2
      (e :: r.1, r.2)
    | (_, .stopIteration, _) => ([], none)
    | (_, .raised err, _) => ([], some err)

/-- Result of one httpx.get call plus raise_for_status in
TurfooLinkScraper.fetch: either the page text of a success response, or an
httpx.HTTPError (transport failure or non-success status). -/
inductive HttpResult where
  | success (text : String)
  | httpError (e : String)
deriving DecidableEq, Repr

/-- Embeds TurfooLinkScraper.fetch (resources.py lines 33-40), drained by a
consumer: URLs are retrieved sequentially in input order, each success
yields its page text, and the first failing URL raises
TurfooLinkScrapeError naming that URL and wrapping the cause, aborting the
rest.  The result triple is (URLs actually retrieved, page texts yielded,
terminal error if raised). -/
def TurfooLinkScraper.fetch (net : String → HttpResult) :
    List String → List String × List String × Option TurfooError
  | [] => ([], [], none)
  | url :: rest =>
    match net url with
    | .success t =>
      let r := TurfooLinkScraper.fetch net rest
      (url :: r.1, t :: r.2.1, r.2.2)
    | .httpError e =>
      ([url], [],
        some (.TurfooLinkScrapeError ("Failed to fetch " ++ url ++ ": " ++ e) e))

/-- Summary dictionary returned by the Celery tasks in tasks.py. -/
structure TaskSummary where
  entries : Nat
  title : String
deriving DecidableEq, Repr

/-- Terminal state of one Celery task run: the task returned a summary
(recorded SUCCEEDED), or an exception propagated out of the task body
(recorded FAILED with that error). -/
inductive TaskResult where
  | succeeded (summary : TaskSummary)
  | failed (err : String)
deriving DecidableEq, Repr

/-- Embeds tasks.fetch_program_feed (tasks.py lines 9-17): it parses the
program feed URL directly with feedparser (one network retrieval, logged)
and returns the summary dictionary with the entry count and the feed title
defaulting to Unknown; it consults neither the fetcher of resources.py nor
the cache, and its only failure mode is an exception escaping
feedparser.parse itself. -/
def fetch_program_feed (conf : Settings) (w : World) : World × TaskResult :=
  let url := conf.turfoo_program_feed_url
  let w2 : World := { w with fetchLog := w.fetchLog ++ [url] }
  match w.net url with
  | .urlError e => (w2, .failed e)
  | .parsed feed =>
    (w2, .succeeded ⟨feed.entries.length, feed.title.getD "Unknown"⟩)

/-- Embeds tasks.fetch_news_feed (tasks.py lines 20-28), identical to the
program task over the news feed URL. -/
def fetch_news_feed (conf : Settings) (w : World) : World × TaskResult :=
  let url := conf.turfoo_news_feed_url
  let w2 : World := { w with fetchLog := w.fetchLog ++ [url] }
  match w.net url with
  | .urlError e => (w2, .failed e)
  | .parsed feed =>
    (w2, .succeeded ⟨feed.entries.length, feed.title.getD "Unknown"⟩)

/-- Embeds tasks.fetch_results_feed (tasks.py lines 31-39), identical to
the program task over the results feed URL. -/
def fetch_results_feed (conf : Settings) (w : World) : World × TaskResult :=
  let url := conf.turfoo_results_feed_url
  let w2 : World := { w with fetchLog := w.fetchLog ++ [url] }
  match w.net url with
  | .urlError e => (w2, .failed e)
  | .parsed feed =>
    (w2, .succeeded ⟨feed.entries.length, feed.title.getD "Unknown"⟩)

mutual

/-- Embeds the frozen dataclass models.Horse: name, birth_year, sex, and
the sire and dam pedigree links. -/
inductive Horse where
  | mk (name : String) (birth_year : Int) (sex : String)
      (sire : Pedigree) (dam : Pedigree)

/-- Embeds the annotated type of the sire/dam fields of models.Horse,
Horse | str | None: a resolved nested Horse record, an unresolved ancestor
name string, or absent. -/
inductive Pedigree where
  | resolved (h : Horse)
  | unresolved (name : String)
  | absent

end

/-- Name field of a Horse record. -/
def Horse.name : Horse → String
  | .mk n _ _ _ _ => n

/-- Birth-year field of a Horse record. -/
def Horse.birth_year : Horse → Int
  | .mk _ y _ _ _ => y

/-- Sex field of a Horse record. -/
def Horse.sex : Horse → String
  | .mk _ _ s _ _ => s

/-- Sire field of a Horse record. -/
def Horse.sire : Horse → Pedigree
  | .mk _ _ _ s _ => s

/-- Dam field of a Horse record. -/
def Horse.dam : Horse → Pedigree
  | .mk _ _ _ _ d => d

/-- Resolving an ancestor name to a full record on a frozen dataclass:
since models.Horse is frozen (immutable), resolution can only construct a
new Horse value carrying the resolved sire, copying every other field; the
original record is left as it was. -/
def Horse.resolveSire (h : Horse) (anc : Horse) : Horse :=
  match h with
  | .mk n y s _ d => .mk n y s (.resolved anc) d

/-- Embeds the Python with-statement over a resource carrying
mixins.ConnectableMixin (mixins.py lines 5-20): entering evaluates
enter, which is exactly self.connect() — if that raises, nothing else
runs and the error propagates; otherwise the block body receives the
handle connect produced, and exit — exactly self.disconnect() — runs
after the body on every exit path, whether the body returned a value or
raised, and the body's outcome then propagates (exit returns None, so
exceptions are not swallowed). -/
def withConnectable {σ H E α : Type}
    (connect : σ → Except E (σ × H))
    (disconnect : σ → σ)
    (body : H → σ → σ × Except E α)
    (s : σ) : σ × Except E α :=
  match connect s with
  | .error e => (s, .error e)
  | .ok (s1, h) =>
    let r := body h s1
    (disconnect r.1, r.2)

/-! Concrete fixtures used to instantiate the theorems below. -/

/-- Sample loaded settings with the three feed URLs. -/
def confX : Settings :=
  ⟨"http://turfoo.example/program.rss", "http://turfoo.example/news.rss",
    "http://turfoo.example/results.rss"⟩

/-- Sample detail record. -/
def detail0 : RSSDetail := ⟨"text/html", "fr", "http://turfoo.example/", ""⟩

/-- Sample raw feed entry with the given title. -/
def rawEntry (t : String) : RawEntry :=
  ⟨t, detail0, [], "http://turfoo.example/" ++ t, "Mon, 01 Jan 2024", "",
    "http://turfoo.example/" ++ t, false, "", detail0⟩

/-- Parse result of a malformed document (also what feedparser hands back
for an HTTP 500 error page: a bozo document with zero entries and no feed
title). -/
def bozoDoc : FeedParserDict := ⟨true, "not well-formed (invalid token)", [], none⟩

/-- Parse result of a well-formed feed carrying zero entries. -/
def emptyDoc : FeedParserDict := ⟨false, "", [], some "Turfoo - Programmes"⟩

/-- Parse result of a well-formed feed with three entries titled A, B, C. -/
def doc3 : FeedParserDict :=
  ⟨false, "", [rawEntry "A", rawEntry "B", rawEntry "C"], some "Turfoo News"⟩

/-- World in which every feed URL retrieves the malformed document. -/
def worldBozo : World := ⟨fun _ => .parsed bozoDoc, fun _ => none, []⟩

/-- World in which every feed URL retrieves the well-formed empty feed. -/
def worldEmpty : World := ⟨fun _ => .parsed emptyDoc, fun _ => none, []⟩

/-- World in which every feed URL retrieves the three-entry feed. -/
def world3 : World := ⟨fun _ => .parsed doc3, fun _ => none, []⟩

/-- World in which the feed endpoint answers HTTP 500, so feedparser hands
back a bozo error-page document with zero entries, and the per-feed-type
dedup marker named by the spec is set in the cache. -/
def wMarked : World :=
  ⟨fun _ => .parsed bozoDoc,
    fun k => if k = "feed:program:inflight" then some "1" else none, []⟩

/-- Sample page-retrieval behavior for the link scraper: one URL fails,
the others serve a page. -/
def netX : String → HttpResult :=
  fun u => if u = "http://b" then .httpError "boom" else .success ("page:" ++ u)

/-- Sample horse whose sire is an unresolved name. -/
def mare : Horse := .mk "Mare" 2015 "F" (.unresolved "Old Sire") .absent

/-- Sample horse used to resolve a pedigree link. -/
def stallion : Horse := .mk "Stallion" 2010 "M" .absent .absent

/-- Sample connect implementation over a call-log state. -/
def connLog (s : List String) : Except String (List String × Nat) :=
  .ok (s ++ ["connect"], 7)

/-! Helper lemmas. -/

/-- Draining a generator that is iterating over its remaining entries
yields exactly those entries, in order, with no error. -/
theorem drainFrom_yielding (l : List RSSEntry) (w : World) :
    drainFrom (l.length + 1) (.yielding l) w = (l, none) := by
  induction l generalizing w with
  | nil => rfl
  | cons e rest ih =>
    have step : drainFrom ((e :: rest).length + 1) (.yielding (e :: rest)) w =
        (e :: (drainFrom (rest.length + 1) (.yielding rest) w).1,
          (drainFrom (rest.length + 1) (.yielding rest) w).2) := rfl
    rw [step, ih]

/-- The fetch body never produces an empty entry list: zero entries is an
error, not a silent empty result. -/
theorem fetchBody_ne_ok_nil (o : ParseOutcome) : fetchBody o ≠ .ok [] := by
  cases o with
  | urlError e => simp [fetchBody]
  | parsed feed =>
    cases hl : feed.entries with
    | nil => by_cases hb : feed.bozo = true <;> simp [fetchBody, hl, hb]
    | cons e rest => by_cases hb : feed.bozo = true <;> simp [fetchBody, hl, hb]

/-- Draining the feed-fetch generator never produces the empty sequence
with no error, whatever the world contains. -/
theorem drain_ne_nil_none (conf : Settings) (ft : RSSFeedType) (w : World)
    (fuel : Nat) :
    drainFrom (fuel + 1) (TurfooRSSFeed.fetch conf ft w).2 w ≠ ([], none) := by
  cases hfb : fetchBody (w.net (ft.value conf)) with
  | error err => simp [TurfooRSSFeed.fetch, drainFrom, genNext, hfb]
  | ok l =>
    cases hl : l with
    | nil => exact absurd (hl ▸ hfb) (fetchBody_ne_ok_nil _)
    | cons e rest =>
      subst hl
      simp [TurfooRSSFeed.fetch, drainFrom, genNext, hfb]

/-! Claim theorems. -/

/-- C1: for every feed whose retrieved document the parser flags as
malformed (bozo), draining the fetch generator raises the feed error
carrying the underlying parser diagnostic (in the message and as the
chained cause), and yields zero entries — no partial entries are produced
before the error, however much fuel the consumer spends. -/
theorem c1_malformed_feed_raises_and_yields_nothing
    (conf : Settings) (ft : RSSFeedType) (w : World) (feed : FeedParserDict)
    (fuel : Nat)
    (hnet : w.net (ft.value conf) = .parsed feed)
    (hbozo : feed.bozo = true) :
    drainFrom (fuel + 1) (TurfooRSSFeed.fetch conf ft w).2 w =
      ([], some (.TurfooFeedError
        (.str ("Malformed feed: " ++ feed.bozo_exception))
        (some feed.bozo_exception))) := by
  simp [TurfooRSSFeed.fetch, drainFrom, genNext, fetchBody, hnet, hbozo]

/-- C1 witness: concrete malformed feed. -/
theorem c1_witness :
    drainFrom 1 (TurfooRSSFeed.fetch confX .PROGRAM worldBozo).2 worldBozo =
      ([], some (.TurfooFeedError
        (.str ("Malformed feed: " ++ bozoDoc.bozo_exception))
        (some bozoDoc.bozo_exception))) :=
  c1_malformed_feed_raises_and_yields_nothing confX .PROGRAM worldBozo
    bozoDoc 0 rfl rfl

/-- C2: for every feed that parses successfully (not bozo) but contains
zero entries, draining the fetch generator raises the feed error for an
empty feed; and in general the fetch generator never drains to an empty
sequence silently (empty output with no error is impossible). -/
theorem c2_empty_feed_raises_never_silently_empty
    (conf : Settings) (ft : RSSFeedType) (w : World) (feed : FeedParserDict)
    (fuel : Nat)
    (hnet : w.net (ft.value conf) = .parsed feed)
    (hbozo : feed.bozo = false)
    (hempty : feed.entries = []) :
    drainFrom (fuel + 1) (TurfooRSSFeed.fetch conf ft w).2 w =
      ([], some (.TurfooFeedError (.str "RSS feed contains no entries") none))
    ∧ ∀ (conf2 : Settings) (ft2 : RSSFeedType) (w2 : World) (fuel2 : Nat),
        drainFrom (fuel2 + 1) (TurfooRSSFeed.fetch conf2 ft2 w2).2 w2 ≠
          ([], none) := by
  constructor
  · simp [TurfooRSSFeed.fetch, drainFrom, genNext, fetchBody, hnet, hbozo,
      hempty]
  · intro conf2 ft2 w2 fuel2
    exact drain_ne_nil_none conf2 ft2 w2 fuel2

/-- C2 witness: concrete well-formed feed with zero entries. -/
theorem c2_witness :
    drainFrom 1 (TurfooRSSFeed.fetch confX .PROGRAM worldEmpty).2 worldEmpty =
      ([], some (.TurfooFeedError (.str "RSS feed contains no entries")
        none)) :=
  (c2_empty_feed_raises_never_silently_empty confX .PROGRAM worldEmpty
    emptyDoc 0 rfl rfl rfl).1

/-- C3 counterexample: with the program feed endpoint answering HTTP 500
(feedparser hands back a bozo error-page document with zero entries and no
title gathered), the scheduler task fetch_program_feed returns the success
summary with zero entries and title Unknown — it does not report FAILED. -/
theorem c3_counterexample_http500_task_succeeds :
    (fetch_program_feed confX wMarked).2 =
      TaskResult.succeeded ⟨0, "Unknown"⟩ := rfl

/-- C3 amended: a network-level retrieval failure raised out of the parse
call is normalized by the Feed Fetcher to the single feed error type
wrapping the underlying cause, and a retrieval failure surfaced by the
parser as a bozo document (the non-2xx case: feedparser does not raise on
HTTP 500) is normalized to the same single feed error type wrapping the
diagnostic; but the scheduler task does not invoke the Feed Fetcher — it
parses directly, and on an HTTP 500 error-page document (zero entries, no
title) it returns the success summary with zero entries and title Unknown
rather than reporting FAILED. -/
theorem c3_transport_normalized_but_task_reports_success
    (conf : Settings) (w : World) :
    (∀ e, fetchBody (.urlError e) =
      .error (.TurfooFeedError .ellipsis (some e)))
    ∧ (∀ feed : FeedParserDict, feed.bozo = true →
        fetchBody (.parsed feed) =
          .error (.TurfooFeedError
            (.str ("Malformed feed: " ++ feed.bozo_exception))
            (some feed.bozo_exception)))
    ∧ (∀ feed : FeedParserDict, feed.entries = [] → feed.title = none →
        w.net conf.turfoo_program_feed_url = .parsed feed →
        (fetch_program_feed conf w).2 =
          TaskResult.succeeded ⟨0, "Unknown"⟩) := by
  refine ⟨fun e => rfl, fun feed hb => ?_, fun feed he ht hw => ?_⟩
  · simp [fetchBody, hb]
  · simp [fetch_program_feed, hw, he, ht]

/-- C3 witness: concrete transport failure and concrete HTTP 500 run. -/
theorem c3_witness :
    fetchBody (.urlError "connection refused") =
      .error (.TurfooFeedError .ellipsis (some "connection refused"))
    ∧ (fetch_program_feed confX wMarked).2 =
        TaskResult.succeeded ⟨0, "Unknown"⟩ :=
  ⟨(c3_transport_normalized_but_task_reports_success confX wMarked).1
      "connection refused",
    (c3_transport_normalized_but_task_reports_success confX
      wMarked).2.2 bozoDoc rfl rfl rfl⟩

/-- C4: for every input URL list A, B, C where retrieving B fails, the
link scraper yields exactly the page text for A, then raises the scrape
error naming B and wrapping the cause, and C is never retrieved; and when
every URL succeeds it yields one page text per input URL in input order. -/
theorem c4_scraper_fail_fast_and_input_order
    (net : String → HttpResult) :
    (∀ (A B C a e : String), net A = .success a → net B = .httpError e →
      TurfooLinkScraper.fetch net [A, B, C] =
        ([A, B], [a],
          some (.TurfooLinkScrapeError
            ("Failed to fetch " ++ B ++ ": " ++ e) e)))
    ∧ ∀ (urls : List String) (pages : String → String),
        (∀ u ∈ urls, net u = .success (pages u)) →
        TurfooLinkScraper.fetch net urls = (urls, urls.map pages, none) := by
  constructor
  · intro A B C a e hA hB
    simp [TurfooLinkScraper.fetch, hA, hB]
  · intro urls pages h
    induction urls with
    | nil => rfl
    | cons u rest ih =>
      have hu : net u = .success (pages u) := h u (by simp)
      have hrest := ih (fun v hv => h v (by simp [hv]))
      simp [TurfooLinkScraper.fetch, hu, hrest]

/-- C4 witness: concrete URL lists with a failing middle URL and with all
URLs succeeding. -/
theorem c4_witness :
    TurfooLinkScraper.fetch netX ["http://a", "http://b", "http://c"] =
      (["http://a", "http://b"], ["page:http://a"],
        some (.TurfooLinkScrapeError
          ("Failed to fetch " ++ "http://b" ++ ": " ++ "boom") "boom"))
    ∧ TurfooLinkScraper.fetch netX ["http://a", "http://c"] =
        (["http://a", "http://c"],
          ["http://a", "http://c"].map (fun u => "page:" ++ u), none) :=
  ⟨(c4_scraper_fail_fast_and_input_order netX).1 "http://a" "http://b"
      "http://c" "page:http://a" "boom" rfl rfl,
    (c4_scraper_fail_fast_and_input_order netX).2 ["http://a", "http://c"]
      (fun u => "page:" ++ u) (by decide)⟩

/-- C5: for every feed that parses successfully with at least one entry,
draining the fetch generator yields exactly one RSSEntry per raw entry,
mapped in source order with no re-sorting and no error; and the scheduler
task reports the summary with that entry count and the feed title. -/
theorem c5_success_yields_all_entries_in_order_and_summary
    (conf : Settings) (ft : RSSFeedType) (w : World) (feed : FeedParserDict)
    (t : String)
    (hnet : w.net (ft.value conf) = .parsed feed)
    (hbozo : feed.bozo = false)
    (hne : feed.entries ≠ [])
    (htitle : feed.title = some t) :
    drainFrom (feed.entries.length + 1) (TurfooRSSFeed.fetch conf ft w).2 w =
      (feed.entries.map RSSEntry.ofRaw, none)
    ∧ (feed.entries.map RSSEntry.ofRaw).length = feed.entries.length
    ∧ ∀ wp : World, wp.net conf.turfoo_program_feed_url = .parsed feed →
        (fetch_program_feed conf wp).2 =
          TaskResult.succeeded ⟨feed.entries.length, t⟩ := by
  refine ⟨?_, by simp, fun wp hp => ?_⟩
  · cases hl : feed.entries with
    | nil => exact absurd hl hne
    | cons e rest =>
      have hfb : fetchBody (w.net (ft.value conf)) =
          .ok (RSSEntry.ofRaw e :: rest.map RSSEntry.ofRaw) := by
        simp [fetchBody, hnet, hbozo, hl]
      have step : drainFrom (rest.length + 1 + 1)
          (TurfooRSSFeed.fetch conf ft w).2 w =
          (RSSEntry.ofRaw e ::
              (drainFrom (rest.length + 1)
                (.yielding (rest.map RSSEntry.ofRaw))
                { w with fetchLog := w.fetchLog ++ [ft.value conf] }).1,
            (drainFrom (rest.length + 1)
                (.yielding (rest.map RSSEntry.ofRaw))
                { w with fetchLog := w.fetchLog ++ [ft.value conf] }).2) := by
        simp only [TurfooRSSFeed.fetch, drainFrom, genNext, hfb]
      have hy := drainFrom_yielding (rest.map RSSEntry.ofRaw)
        { w with fetchLog := w.fetchLog ++ [ft.value conf] }
      rw [List.length_map] at hy
      simp [hl, step, hy]
  · simp [fetch_program_feed, hp, htitle]

/-- C5 witness: concrete three-entry feed with titles A, B, C. -/
theorem c5_witness :
    drainFrom (doc3.entries.length + 1)
        (TurfooRSSFeed.fetch confX .NEWS world3).2 world3 =
      (doc3.entries.map RSSEntry.ofRaw, none)
    ∧ (fetch_program_feed confX world3).2 =
        TaskResult.succeeded ⟨doc3.entries.length, "Turfoo News"⟩ :=
  ⟨(c5_success_yields_all_entries_in_order_and_summary confX .NEWS world3
      doc3 "Turfoo News" rfl rfl (by decide) rfl).1,
    (c5_success_yields_all_entries_in_order_and_summary confX .NEWS world3
      doc3 "Turfoo News" rfl rfl (by decide) rfl).2.2 world3 rfl⟩

/-- C6: for every raw configuration, when loading succeeds every feed-type
variant's bound URL is syntactically valid, and loading succeeds exactly
when all three configured URLs are valid — an invalid URL makes the
configuration fail to load (at startup), so no Settings value ever reaches
fetch time with an invalid URL; each variant is bound to exactly the one
URL of its settings field. -/
theorem c6_feed_urls_validated_at_load
    (env : RawEnv) :
    (∀ conf : Settings, Settings.load env = some conf →
      ∀ ft : RSSFeedType, isValidHttpUrl (ft.value conf) = true)
    ∧ ((Settings.load env).isSome =
        (isValidHttpUrl env.turfoo_program_feed_url &&
          isValidHttpUrl env.turfoo_news_feed_url &&
          isValidHttpUrl env.turfoo_results_feed_url))
    ∧ ∀ conf : Settings,
        RSSFeedType.PROGRAM.value conf = conf.turfoo_program_feed_url ∧
        RSSFeedType.NEWS.value conf = conf.turfoo_news_feed_url ∧
        RSSFeedType.RESULTS.value conf = conf.turfoo_results_feed_url := by
  refine ⟨fun conf hload ft => ?_, ?_, fun conf => ⟨rfl, rfl, rfl⟩⟩
  · simp only [Settings.load] at hload
    split at hload
    · next hc =>
      rw [Bool.and_eq_true, Bool.and_eq_true] at hc
      obtain ⟨⟨hp, hn⟩, hr⟩ := hc
      injection hload with h
      subst h
      cases ft
      · exact hp
      · exact hn
      · exact hr
    · next => exact Option.noConfusion hload
  · simp only [Settings.load]
    split
    · next hc => rw [hc]; rfl
    · next hc =>
      rw [Bool.not_eq_true] at hc
      rw [hc]; rfl

/-- C6 witness: a valid configuration loads and binds valid URLs; an
invalid URL makes loading fail. -/
theorem c6_witness :
    isValidHttpUrl (RSSFeedType.PROGRAM.value confX) = true
    ∧ (Settings.load ⟨"not a url", "http://turfoo.example/news.rss",
        "http://turfoo.example/results.rss"⟩).isSome = false :=
  ⟨(c6_feed_urls_validated_at_load ⟨"http://turfoo.example/program.rss",
        "http://turfoo.example/news.rss",
        "http://turfoo.example/results.rss"⟩).1 confX (by decide)
      RSSFeedType.PROGRAM,
    ((c6_feed_urls_validated_at_load ⟨"not a url",
        "http://turfoo.example/news.rss",
        "http://turfoo.example/results.rss"⟩).2.1).trans (by decide)⟩

/-- C7 counterexample: in a world where the per-feed-type dedup marker
named by the spec is set in the cache, the scheduler task for the program
feed still performs its network retrieval — the run is not skipped. -/
theorem c7_counterexample_marker_does_not_skip :
    wMarked.kv "feed:program:inflight" = some "1"
    ∧ (fetch_program_feed confX wMarked).1.fetchLog =
        ["http://turfoo.example/program.rss"] := ⟨rfl, rfl⟩

/-- C7 amended: the scheduler tasks implement no deduplication: a run of
the program-feed task always performs its network retrieval, appending the
feed URL to the retrieval log, and neither its result nor its retrieval
depends on any cache contents — so two overlapping runs for the same feed
type both fetch, marker or not. -/
theorem c7_amended_no_dedup_marker_consulted
    (conf : Settings) (w : World) (kv2 : String → Option String) :
    (fetch_program_feed conf w).1.fetchLog =
      w.fetchLog ++ [conf.turfoo_program_feed_url]
    ∧ (fetch_program_feed conf { w with kv := kv2 }).2 =
        (fetch_program_feed conf w).2
    ∧ (fetch_program_feed conf { w with kv := kv2 }).1.fetchLog =
        (fetch_program_feed conf w).1.fetchLog := by
  refine ⟨?_, ?_, ?_⟩ <;>
    cases h : w.net conf.turfoo_program_feed_url <;>
      simp [fetch_program_feed, h]

/-- C8: a Horse record's sire and dam fields each hold exactly one of a
nested Horse, an unresolved name string, or absent; the three forms are
unambiguous (pairwise distinct and exhaustive) and round-trip through
construction; resolving an unresolved sire later produces a new Horse
record — equal to the original in every other field yet a different
record — while the original record still carries its unresolved name. -/
theorem c8_horse_pedigree_roundtrip_and_resolution
    (n : String) (y : Int) (sx : String) (si da : Pedigree)
    (h anc : Horse) (nm : String)
    (hsire : h.sire = .unresolved nm) :
    ((Horse.mk n y sx si da).sire = si ∧ (Horse.mk n y sx si da).dam = da)
    ∧ (∀ (h2 : Horse) (m : String),
        Pedigree.resolved h2 ≠ .unresolved m ∧
        Pedigree.resolved h2 ≠ .absent ∧
        Pedigree.unresolved m ≠ .absent)
    ∧ (∀ p : Pedigree, (∃ h2, p = .resolved h2) ∨
        (∃ m, p = .unresolved m) ∨ p = .absent)
    ∧ ((h.resolveSire anc).sire = .resolved anc
        ∧ (h.resolveSire anc).name = h.name
        ∧ (h.resolveSire anc).birth_year = h.birth_year
        ∧ (h.resolveSire anc).sex = h.sex
        ∧ (h.resolveSire anc).dam = h.dam
        ∧ h.resolveSire anc ≠ h) := by
  refine ⟨⟨rfl, rfl⟩, fun h2 m =>
      ⟨fun hh => Pedigree.noConfusion hh, fun hh => Pedigree.noConfusion hh,
        fun hh => Pedigree.noConfusion hh⟩,
    fun p => ?_, ?_⟩
  · cases p with
    | resolved h2 => exact Or.inl ⟨h2, rfl⟩
    | unresolved m => exact Or.inr (Or.inl ⟨m, rfl⟩)
    | absent => exact Or.inr (Or.inr rfl)
  · cases h with
    | mk n0 y0 s0 si0 d0 =>
      have hs : si0 = .unresolved nm := hsire
      refine ⟨rfl, rfl, rfl, rfl, rfl, fun heq => ?_⟩
      injection heq with h1 h2 h3 h4 h5
      rw [hs] at h4
      exact Pedigree.noConfusion h4

/-- C8 witness: concrete mare with an unresolved sire name, resolved to a
concrete stallion. -/
theorem c8_witness :
    (mare.resolveSire stallion).sire = Pedigree.resolved stallion
    ∧ mare.resolveSire stallion ≠ mare :=
  ⟨(c8_horse_pedigree_roundtrip_and_resolution "Foal" 2020 "M"
      (.unresolved "X") .absent mare stallion "Old Sire" rfl).2.2.2.1,
    (c8_horse_pedigree_roundtrip_and_resolution "Foal" 2020 "M"
      (.unresolved "X") .absent mare stallion "Old Sire"
      rfl).2.2.2.2.2.2.2.2⟩

/-- C9: calling TurfooRSSFeed.fetch performs no retrieval, parsing or
validation — the world (in particular its retrieval log) is unchanged and
a fresh generator over the feed URL is returned; whenever the retrieve-
and-validate body would fail, the error is raised only when the returned
generator is first advanced, and that first advance is when the retrieval
is performed (logged). -/
theorem c9_fetch_call_is_lazy
    (conf : Settings) (ft : RSSFeedType) (w : World) (err : TurfooError)
    (herr : fetchBody (w.net (ft.value conf)) = .error err) :
    (TurfooRSSFeed.fetch conf ft w).1 = w
    ∧ (TurfooRSSFeed.fetch conf ft w).2 = .created (ft.value conf)
    ∧ genNext (TurfooRSSFeed.fetch conf ft w).2 w =
        ({ w with fetchLog := w.fetchLog ++ [ft.value conf] },
          .raised err, .finished) := by
  refine ⟨rfl, rfl, ?_⟩
  simp [TurfooRSSFeed.fetch, genNext, herr]

/-- C9 witness: concrete malformed-feed world; the call leaves the world
untouched and the error surfaces at the first advance. -/
theorem c9_witness :
    (TurfooRSSFeed.fetch confX .PROGRAM worldBozo).1 = worldBozo
    ∧ genNext (TurfooRSSFeed.fetch confX .PROGRAM worldBozo).2 worldBozo =
        ({ worldBozo with fetchLog :=
            worldBozo.fetchLog ++ [RSSFeedType.PROGRAM.value confX] },
          .raised (.TurfooFeedError
            (.str ("Malformed feed: " ++ bozoDoc.bozo_exception))
            (some bozoDoc.bozo_exception)), .finished) :=
  ⟨(c9_fetch_call_is_lazy confX .PROGRAM worldBozo _ rfl).1,
    (c9_fetch_call_is_lazy confX .PROGRAM worldBozo _ rfl).2.2⟩

/-- C10: for every resource with the connect/disconnect capability used as
a context manager, entering the block hands the body exactly the handle
produced by connect, and disconnect is invoked on the body's final state on
every exit path — both when the body returns a value and when it raises,
with the body's outcome propagating either way. -/
theorem c10_context_manager_always_disconnects
    {σ H E α : Type}
    (connect : σ → Except E (σ × H)) (disconnect : σ → σ)
    (body : H → σ → σ × Except E α)
    (s s1 : σ) (h : H)
    (hconn : connect s = .ok (s1, h)) :
    (∀ (s2 : σ) (a : α), body h s1 = (s2, .ok a) →
      withConnectable connect disconnect body s = (disconnect s2, .ok a))
    ∧ (∀ (s2 : σ) (e : E), body h s1 = (s2, .error e) →
      withConnectable connect disconnect body s =
        (disconnect s2, .error e)) := by
  constructor
  · intro s2 a hb
    simp [withConnectable, hconn, hb]
  · intro s2 e hb
    simp [withConnectable, hconn, hb]

/-- C10 witness: a concrete logging resource; the body raises, and
disconnect still runs after it. -/
theorem c10_witness :
    withConnectable connLog (fun s => s ++ ["disconnect"])
      (fun _ s => (s ++ ["body"],
        (Except.error "boom" : Except String Nat))) [] =
      (["connect", "body", "disconnect"], Except.error "boom") :=
  (c10_context_manager_always_disconnects connLog
      (fun s => s ++ ["disconnect"])
      (fun _ s => (s ++ ["body"],
        (Except.error "boom" : Except String Nat)))
      [] ["connect"] 7 rfl).2 ["connect", "body"] "boom" rfl

end Turfoo
